import Mathlib

/-!
Verification development for a small banking application (Express/MongoDB
demo).  The definitions below are shallow embeddings of the route handlers
and model-level hooks of the repository:

* the transaction-create handler and the cancel handler
  (src/routes/transaction.js),
* the loan amortization pre-save hook and the loan calculator endpoint
  (src/routes/transaction.js, loan routes file),
* the loan interest-rate tier table and the duplicate-active-loan check
  (loan routes file),
* the card fee/rewards tables (src/routes/card.js) and the card-number
  generator with its Luhn check digit (card model in
  src/routes/transaction.js).

Monetary values are embedded as exact rationals; the identities claimed by
the specification are arithmetic identities that the source computes with
the same formulas.  Store state is embedded as explicit record/list state
threaded through each operation.
-/

/-- Transaction types accepted by the create endpoint. -/
inductive TxType
  | transfer
  | deposit
  | withdrawal
  | payment
  deriving DecidableEq, Repr

/-- Transaction statuses of the transaction schema enum. -/
inductive TxStatus
  | pending
  | completed
  | failed
  | cancelled
  deriving DecidableEq, Repr

/-- A transaction record: the fields of the transaction schema that the
claims mention (sender, receiver, amount, type, status, completedAt).
Identifiers are embedded as naturals and timestamps as naturals. -/
structure Transaction where
  sender : Nat
  receiver : Nat
  amount : ℚ
  type : TxType
  status : TxStatus
  completedAt : Option Nat
  deriving DecidableEq, Repr

/-- The store state the create handler touches: the balance of the sender
document, the balance of the receiver document, and the persisted list of
transaction records. -/
structure CreateState where
  senderBalance : ℚ
  receiverBalance : ℚ
  transactions : List Transaction
  deriving DecidableEq, Repr

/-- Typed failure of the create handler relevant to the claims: the
"Insufficient balance" responses. -/
inductive CreateError
  | insufficientBalance
  deriving DecidableEq, Repr

/-- The freshly constructed transaction document saved with the default
status pending and no completedAt. -/
def mkPendingTx (sid rid : Nat) (amount : ℚ) (ty : TxType) : Transaction :=
  { sender := sid
    receiver := rid
    amount := amount
    type := ty
    status := .pending
    completedAt := none }

/-- The in-place update the handler performs after a successful balance
mutation: status becomes completed and completedAt is set to the operation
time. -/
def completeTx (tx : Transaction) (now : Nat) : Transaction :=
  { tx with status := .completed, completedAt := some now }

/-- Embedding of the create handler of src/routes/transaction.js
(validation and the receiver-existence lookup are handled upstream; the
receiver is assumed found and active).  The handler:

1. rejects a transfer whose sender balance is below the amount;
2. saves a new transaction record with status pending;
3. dispatches on the type: transfer debits the sender, credits the
   receiver and completes the record; deposit credits the sender and
   completes; withdrawal re-checks the balance, returning the
   insufficient-balance error with the pending record already saved, and
   otherwise debits and completes; payment has no processing branch, so
   the pending record is saved and nothing else happens.

The function returns the error (if any) together with the final store
state; a save of the record followed by its in-place completion is
represented by appending the completed record. -/
def createTransaction (sid rid : Nat) (st : CreateState) (ty : TxType)
    (amount : ℚ) (now : Nat) : Option CreateError × CreateState :=
  if ty = .transfer ∧ st.senderBalance < amount then
    (some .insufficientBalance, st)
  else
    let tx := mkPendingTx sid rid amount ty
    match ty with
    | .transfer =>
        (none,
         { senderBalance := st.senderBalance - amount
           receiverBalance := st.receiverBalance + amount
           transactions := st.transactions ++ [completeTx tx now] })
    | .deposit =>
        (none,
         { st with
             senderBalance := st.senderBalance + amount
             transactions := st.transactions ++ [completeTx tx now] })
    | .withdrawal =>
        if st.senderBalance < amount then
          (some .insufficientBalance,
           { st with transactions := st.transactions ++ [tx] })
        else
          (none,
           { st with
               senderBalance := st.senderBalance - amount
               transactions := st.transactions ++ [completeTx tx now] })
    | .payment =>
        (none, { st with transactions := st.transactions ++ [tx] })

/-- Typed failures of the cancel handler (besides not-found, which needs
no record to state). -/
inductive CancelError
  | onlySender
  | notPending
  deriving DecidableEq, Repr

/-- Embedding of the cancel handler of src/routes/transaction.js: only the
sender may cancel, only a pending transaction can be cancelled, and a
successful cancel sets the status to cancelled. -/
def cancelTransaction (callerId : Nat) (tx : Transaction) :
    Except CancelError Transaction :=
  if tx.sender ≠ callerId then .error .onlySender
  else if tx.status ≠ .pending then .error .notPending
  else .ok { tx with status := .cancelled }

/-- The status-mutating steps the repository performs on an already
persisted transaction record: the create handler completes the record it
just saved with status pending, and the cancel handler cancels a pending
record.  No other route writes a transaction status (in particular no code
path assigns the status failed). -/
inductive TxStep : Transaction → Transaction → Prop
  | complete (tx : Transaction) (now : Nat) (h : tx.status = .pending) :
      TxStep tx { tx with status := .completed, completedAt := some now }
  | cancel (callerId : Nat) (tx tx' : Transaction)
      (h : cancelTransaction callerId tx = .ok tx') : TxStep tx tx'

/-- A concrete pending transaction used to witness the cancel theorem. -/
def txPendingExample : Transaction :=
  { sender := 0
    receiver := 1
    amount := 5
    type := .transfer
    status := .pending
    completedAt := none }

/-- Loan types of the loan schema enum. -/
inductive LoanType
  | personal
  | home
  | business
  | education
  | vehicle
  deriving DecidableEq, Repr

/-- Loan statuses of the loan schema enum. -/
inductive LoanStatus
  | pending
  | approved
  | rejected
  | active
  | closed
  deriving DecidableEq, Repr

/-- Embedding of the interest-rate switch of the loan apply handler: the
rate is a fixed tier table keyed by loan type and an amount threshold. -/
def interestRate : LoanType → ℚ → ℚ
  | .personal, amount => if amount ≥ 50000 then 10.5 else 12.5
  | .home, amount => if amount ≥ 1000000 then 8.5 else 9.5
  | .business, amount => if amount ≥ 200000 then 11.5 else 13.5
  | .education, _ => 9.5
  | .vehicle, amount => if amount ≥ 500000 then 9.0 else 10.5

/-- A persisted loan record: the fields of the loan schema the claims
mention. -/
structure LoanRec where
  user : Nat
  loanType : LoanType
  amount : ℚ
  interestRate : ℚ
  term : ℕ
  status : LoanStatus
  deriving DecidableEq, Repr

/-- The statuses the loan apply handler treats as blocking a new
application (the status $in filter of its findOne pre-check). -/
def isNonTerminal : LoanStatus → Bool
  | .pending => true
  | .approved => true
  | .active => true
  | _ => false

/-- Typed failure of the loan apply handler relevant to the claims. -/
inductive LoanError
  | duplicateActiveLoan
  deriving DecidableEq, Repr

/-- Embedding of the loan apply handler: the interest rate is derived from
the tier table, then the handler looks for an existing loan of the same
user whose status is pending, approved or active; if one exists it fails
with the duplicate-active-loan error and no document is written, otherwise
a new loan record with the default status pending is saved.  The function
returns the resulting store. -/
def applyLoan (loans : List LoanRec) (uid : Nat) (lt : LoanType)
    (amount : ℚ) (term : ℕ) : Except LoanError (List LoanRec) :=
  let rate := interestRate lt amount
  if loans.any (fun l => l.user == uid && isNonTerminal l.status) then
    .error .duplicateActiveLoan
  else
    .ok (loans ++
      [{ user := uid
         loanType := lt
         amount := amount
         interestRate := rate
         term := term
         status := .pending }])

/-- A concrete pending loan used to witness the duplicate-loan theorem. -/
def loanPendingExample : LoanRec :=
  { user := 0
    loanType := .personal
    amount := 5000
    interestRate := 12.5
    term := 12
    status := .pending }

/-- The mutable loan fields the amortization pre-save hook reads and
writes. -/
structure Loan where
  amount : ℚ
  interestRate : ℚ
  term : ℕ
  monthlyPayment : ℚ
  totalAmount : ℚ
  remainingBalance : ℚ
  deriving DecidableEq, Repr

/-- Embedding of the loan schema pre-save hook: when amount, interestRate
or term was modified (the isModified flag), the monthly payment is
recomputed with the annuity formula (or principal divided by term when the
monthly rate is not positive), the total amount is the monthly payment
times the number of payments, and the remaining balance is reset to the
amount. -/
def loanPresaveCompute (l : Loan) (isModified : Bool) : Loan :=
  if isModified then
    let monthlyRate := l.interestRate / 100 / 12
    let numberOfPayments := l.term
    let monthlyPayment :=
      if monthlyRate > 0 then
        l.amount * monthlyRate * (1 + monthlyRate) ^ numberOfPayments /
          ((1 + monthlyRate) ^ numberOfPayments - 1)
      else l.amount / numberOfPayments
    { l with
        monthlyPayment := monthlyPayment
        totalAmount := monthlyPayment * numberOfPayments
        remainingBalance := l.amount }
  else l

/-- Embedding of the loan calculator endpoint: same monthly-payment
computation as the pre-save hook, plus the derived totalAmount and
totalInterest.  Rounding to two decimals happens only in the response
serialization, after these values are derived. -/
def loanCalculator (amount : ℚ) (term : ℕ) (interestRate : ℚ) :
    ℚ × ℚ × ℚ :=
  let monthlyRate := interestRate / 100 / 12
  let numberOfPayments := term
  let monthlyPayment :=
    if monthlyRate > 0 then
      amount * monthlyRate * (1 + monthlyRate) ^ numberOfPayments /
        ((1 + monthlyRate) ^ numberOfPayments - 1)
    else amount / numberOfPayments
  let totalAmount := monthlyPayment * numberOfPayments
  (monthlyPayment, totalAmount, totalAmount - amount)

/-- The amortization operation exactly as the specification words it:
monthlyRate = rate / 100 / 12; the annuity formula when the monthly rate
is positive, principal / term otherwise; totalAmount = monthlyPayment *
term; totalInterest = totalAmount - principal. -/
def amortizeSpecFormula (principal ratePct : ℚ) (term : ℕ) : ℚ × ℚ × ℚ :=
  let monthlyRate := ratePct / 100 / 12
  let monthlyPayment :=
    if monthlyRate > 0 then
      principal * monthlyRate * (1 + monthlyRate) ^ term /
        ((1 + monthlyRate) ^ term - 1)
    else principal / term
  (monthlyPayment, monthlyPayment * term, monthlyPayment * term - principal)

/-- Card types of the card schema enum. -/
inductive CardType
  | credit
  | debit
  deriving DecidableEq, Repr

/-- Card categories of the card schema enum. -/
inductive CardCategory
  | classic
  | gold
  | platinum
  | signature
  | infinite
  deriving DecidableEq, Repr

/-- Rewards programs of the card schema enum. -/
inductive Rewards
  | cashback
  | points
  | miles
  | none
  deriving DecidableEq, Repr

/-- Embedding of the annual-fee switch of the card apply handler. -/
def annualFee (cardType : CardType) (cardCategory : CardCategory) : ℕ :=
  match cardCategory with
  | .classic => if cardType = .credit then 500 else 0
  | .gold => if cardType = .credit then 1000 else 250
  | .platinum => if cardType = .credit then 2500 else 500
  | .signature => if cardType = .credit then 5000 else 1000
  | .infinite => if cardType = .credit then 10000 else 2000

/-- Embedding of the rewards-program derivation of the card apply handler:
the program starts as none and is only changed by the switch inside the
credit branch, which has no case for classic. -/
def rewardsProgram (cardType : CardType) (cardCategory : CardCategory) :
    Rewards :=
  if cardType = .credit then
    match cardCategory with
    | .classic => .none
    | .gold => .cashback
    | .platinum => .points
    | .signature => .miles
    | .infinite => .miles
  else .none

/-- Card networks of the card schema enum. -/
inductive CardNetwork
  | visa
  | mastercard
  | rupay
  | amex
  deriving DecidableEq, Repr

/-- First digit of the generated card number per network (the nested
conditional of the generator; American Express is the final else). -/
def networkFirstDigit : CardNetwork → ℕ
  | .visa => 4
  | .mastercard => 5
  | .rupay => 6
  | .amex => 3

/-- Doubling step of the Luhn loop: the digit is doubled and reduced by 9
when the double exceeds 9. -/
def luhnDouble (d : ℕ) : ℕ :=
  let doubled := d * 2
  if doubled > 9 then doubled - 9 else doubled

/-- The Luhn loop of the generator, walking the digits from the last to
the first with the isEven flag starting false (so the rightmost digit of
the input is not doubled, the next one is, and so on). -/
def luhnSumFromRight : List ℕ → Bool → ℕ
  | [], _ => 0
  | d :: ds, isEven =>
      (if isEven then luhnDouble d else d) + luhnSumFromRight ds (!isEven)

/-- Luhn sum of a digit string as the generator computes it. -/
def luhnSum (digits : List ℕ) : ℕ := luhnSumFromRight digits.reverse false

/-- Check digit of the generator: (10 - sum mod 10) mod 10. -/
def luhnCheckDigit (digits : List ℕ) : ℕ := (10 - luhnSum digits % 10) % 10

/-- Embedding of the card-number generator of the card model pre-save
hook: the number starts with the network digit, the random loop appends
its digits (the source loop iterates 15 times, so randomDigits stands for
15 drawn digits), and the Luhn check digit of everything accumulated so
far is appended at the end. -/
def generateCardNumber (network : CardNetwork) (randomDigits : List ℕ) :
    List ℕ :=
  let body := networkFirstDigit network :: randomDigits
  body ++ [luhnCheckDigit body]

/-- The 16-digit well-formedness constraint the card schema itself imposes
on cardNumber (the match regex of exactly 16 digits). -/
def validCardNumber (digits : List ℕ) : Prop :=
  digits.length = 16 ∧ ∀ d ∈ digits, d < 10

/-- Success shape of the cancel handler: an ok result is produced exactly
when the caller is the sender and the record is pending, and the result is
the record with status cancelled. -/
theorem cancelTransaction_ok_iff (callerId : Nat) (tx tx' : Transaction) :
    cancelTransaction callerId tx = .ok tx' ↔
      tx.sender = callerId ∧ tx.status = .pending ∧
        tx' = { tx with status := .cancelled } := by
  unfold cancelTransaction
  by_cases h1 : tx.sender = callerId
  · by_cases h2 : tx.status = TxStatus.pending
    · simp [h1, h2, eq_comm]
    · simp [h1, h2]
  · simp [h1]

/-- C1: a transfer whose amount is at most the sender balance (in
particular, equal to it) passes the insufficiency check and succeeds: the
sender balance is decreased by the amount, the receiver balance is
increased by the same amount, and the persisted record has status
completed with completedAt set to the operation time; when the balance
equals the amount the new sender balance is zero. -/
theorem transfer_sufficient_completes (sid rid : Nat) (st : CreateState)
    (amt : ℚ) (now : Nat) (h : amt ≤ st.senderBalance) :
    createTransaction sid rid st .transfer amt now =
      (none,
       { senderBalance := st.senderBalance - amt
         receiverBalance := st.receiverBalance + amt
         transactions := st.transactions ++
           [{ sender := sid
              receiver := rid
              amount := amt
              type := .transfer
              status := .completed
              completedAt := some now }] }) ∧
    (st.senderBalance = amt → st.senderBalance - amt = 0) := by
  have hn : ¬ st.senderBalance < amt := not_lt.mpr h
  refine ⟨?_, fun he => by rw [he, sub_self]⟩
  simp [createTransaction, hn, mkPendingTx, completeTx]

/-- Witness for C1 at the equality boundary: balance 50, amount 50. -/
theorem transfer_sufficient_completes_witness :
    (createTransaction 0 1 ⟨50, 0, []⟩ .transfer 50 3).2.senderBalance = 0 := by
  have h := transfer_sufficient_completes 0 1 ⟨50, 0, []⟩ 50 3 (by norm_num)
  rw [h.1]
  exact h.2 rfl

/-- C4: a withdrawal whose amount exceeds the sender balance fails with
the insufficient-balance error and leaves both balances unchanged. -/
theorem withdrawal_insufficient_fails (sid rid : Nat) (st : CreateState)
    (amt : ℚ) (now : Nat) (h : st.senderBalance < amt) :
    (createTransaction sid rid st .withdrawal amt now).1 =
      some .insufficientBalance ∧
    (createTransaction sid rid st .withdrawal amt now).2.senderBalance =
      st.senderBalance ∧
    (createTransaction sid rid st .withdrawal amt now).2.receiverBalance =
      st.receiverBalance := by
  simp [createTransaction, h]

/-- Witness for C4: balance 10, requested amount 50. -/
theorem withdrawal_insufficient_fails_witness :
    (createTransaction 0 1 ⟨10, 0, []⟩ .withdrawal 50 7).1 =
        some CreateError.insufficientBalance ∧
    (createTransaction 0 1 ⟨10, 0, []⟩ .withdrawal 50 7).2.senderBalance =
        10 :=
  ⟨(withdrawal_insufficient_fails 0 1 ⟨10, 0, []⟩ 50 7 (by norm_num)).1,
   (withdrawal_insufficient_fails 0 1 ⟨10, 0, []⟩ 50 7 (by norm_num)).2.1⟩

/-- C6 counterexample: at sender balance 100, receiver balance 0 and
amount 50, a payment and a transfer do not produce the same data-level
outcome: the sender balances differ (100 against 50) and the persisted
record statuses differ (pending against completed). -/
theorem payment_transfer_differ_cex :
    ¬ ((createTransaction 0 1 ⟨100, 0, []⟩ .payment 50 2).2.senderBalance =
         (createTransaction 0 1 ⟨100, 0, []⟩ .transfer 50 2).2.senderBalance ∧
       (createTransaction 0 1 ⟨100, 0, []⟩ .payment 50 2).2.transactions.map
           Transaction.status =
         (createTransaction 0 1 ⟨100, 0, []⟩ .transfer 50 2).2.transactions.map
           Transaction.status) := by
  intro hc
  have h1 := hc.1
  norm_num [createTransaction] at h1

/-- C6 amended: the payment branch of the create handler performs no
processing at all: it mutates neither balance and leaves the persisted
record with status pending and no completedAt, while a transfer debits,
credits and completes. -/
theorem payment_records_pending_only (sid rid : Nat) (st : CreateState)
    (amt : ℚ) (now : Nat) :
    createTransaction sid rid st .payment amt now =
      (none,
       { st with transactions :=
           st.transactions ++ [mkPendingTx sid rid amt .payment] }) ∧
    (mkPendingTx sid rid amt .payment).status = .pending ∧
    (mkPendingTx sid rid amt .payment).completedAt = none := by
  refine ⟨?_, rfl, rfl⟩
  simp [createTransaction]

/-- C10: the create handler saves the new record with status pending
before any balance check or mutation of the dispatch, so a withdrawal that
fails the balance check, and any payment, still leaves a persisted pending
record in the store. -/
theorem pending_record_persisted (sid rid : Nat) (st : CreateState)
    (amt : ℚ) (now : Nat) :
    (st.senderBalance < amt →
       (createTransaction sid rid st .withdrawal amt now).2.transactions =
           st.transactions ++ [mkPendingTx sid rid amt .withdrawal] ∧
       (createTransaction sid rid st .withdrawal amt now).1 =
           some .insufficientBalance) ∧
    ((createTransaction sid rid st .payment amt now).2.transactions =
        st.transactions ++ [mkPendingTx sid rid amt .payment]) ∧
    (mkPendingTx sid rid amt .withdrawal).status = .pending ∧
    (mkPendingTx sid rid amt .payment).status = .pending := by
  refine ⟨fun h => ?_, ?_, rfl, rfl⟩
  · simp [createTransaction, h]
  · simp [createTransaction]

/-- Witness for C10: balance 10, requested withdrawal 50 leaves a pending
record in the store. -/
theorem pending_record_persisted_witness :
    (createTransaction 0 1 ⟨10, 0, []⟩ .withdrawal 50 7).2.transactions =
      [mkPendingTx 0 1 50 .withdrawal] := by
  have h := (pending_record_persisted 0 1 ⟨10, 0, []⟩ 50 7).1 (by norm_num)
  simpa using h.1

/-- C9: cancellation succeeds exactly on a pending transaction of the
calling sender, setting the status to cancelled, and fails on every other
status; and every status-mutating step of the repository starts from a
pending record, so a record whose status has left pending never
transitions again and cancelled is reachable only from pending. -/
theorem cancel_only_from_pending (callerId : Nat) (tx tx' : Transaction) :
    (cancelTransaction callerId tx = .ok tx' ↔
       tx.sender = callerId ∧ tx.status = .pending ∧
         tx' = { tx with status := .cancelled }) ∧
    (TxStep tx tx' → tx.status = .pending) := by
  refine ⟨cancelTransaction_ok_iff callerId tx tx', fun hstep => ?_⟩
  cases hstep with
  | complete tx now h => exact h
  | cancel c tx tx' h => exact ((cancelTransaction_ok_iff c tx tx').mp h).2.1

/-- Witness for C9: a concrete pending transaction cancelled by its
sender. -/
theorem cancel_only_from_pending_witness :
    txPendingExample.status = TxStatus.pending :=
  (cancel_only_from_pending 0 txPendingExample
      { txPendingExample with status := .cancelled }).2
    (TxStep.cancel 0 _ _ rfl)

/-- C2: the loan pre-save hook and the calculator endpoint both compute
the amortization exactly as specified: monthlyRate = rate / 100 / 12, the
annuity formula when the monthly rate is positive and principal / term
otherwise, with totalAmount = monthlyPayment * term and totalInterest =
totalAmount - principal; the hook also resets remainingBalance to the
principal. -/
theorem amortize_formula_and_totals (p r : ℚ) (t : ℕ) (l : Loan) :
    loanCalculator p t r = amortizeSpecFormula p r t ∧
    (loanCalculator p t r).2.1 = (loanCalculator p t r).1 * t ∧
    (loanCalculator p t r).2.2 = (loanCalculator p t r).2.1 - p ∧
    (loanPresaveCompute l true).monthlyPayment =
        (amortizeSpecFormula l.amount l.interestRate l.term).1 ∧
    (loanPresaveCompute l true).totalAmount =
        (amortizeSpecFormula l.amount l.interestRate l.term).2.1 ∧
    (loanPresaveCompute l true).remainingBalance = l.amount :=
  ⟨rfl, rfl, rfl, rfl, rfl, rfl⟩

/-- C5: the derived interest rate reproduces the tier table of the loan
apply handler exactly, including at the threshold boundaries. -/
theorem interestRate_tier_table (a : ℚ) :
    interestRate .personal a = (if a ≥ 50000 then 10.5 else 12.5) ∧
    interestRate .home a = (if a ≥ 1000000 then 8.5 else 9.5) ∧
    interestRate .business a = (if a ≥ 200000 then 11.5 else 13.5) ∧
    interestRate .education a = 9.5 ∧
    interestRate .vehicle a = (if a ≥ 500000 then 9.0 else 10.5) ∧
    interestRate .personal 50000 = 10.5 ∧
    interestRate .personal 49999 = 12.5 ∧
    interestRate .home 1000000 = 8.5 ∧
    interestRate .home 999999 = 9.5 ∧
    interestRate .business 200000 = 11.5 ∧
    interestRate .business 199999 = 13.5 ∧
    interestRate .vehicle 500000 = 9.0 ∧
    interestRate .vehicle 499999 = 10.5 := by
  refine ⟨rfl, rfl, rfl, rfl, rfl, ?_, ?_, ?_, ?_, ?_, ?_, ?_, ?_⟩ <;>
    norm_num [interestRate]

/-- C7: the derived annual fee and rewards program reproduce the fixed
fee-schedule table of the card apply handler; every debit card gets the
rewards program none. -/
theorem feeSchedule_table :
    annualFee .credit .classic = 500 ∧ annualFee .debit .classic = 0 ∧
    annualFee .credit .gold = 1000 ∧ annualFee .debit .gold = 250 ∧
    annualFee .credit .platinum = 2500 ∧ annualFee .debit .platinum = 500 ∧
    annualFee .credit .signature = 5000 ∧
    annualFee .debit .signature = 1000 ∧
    annualFee .credit .infinite = 10000 ∧
    annualFee .debit .infinite = 2000 ∧
    rewardsProgram .credit .classic = .none ∧
    rewardsProgram .credit .gold = .cashback ∧
    rewardsProgram .credit .platinum = .points ∧
    rewardsProgram .credit .signature = .miles ∧
    rewardsProgram .credit .infinite = .miles ∧
    rewardsProgram .debit .classic = .none ∧
    rewardsProgram .debit .gold = .none ∧
    rewardsProgram .debit .platinum = .none ∧
    rewardsProgram .debit .signature = .none ∧
    rewardsProgram .debit .infinite = .none := by
  decide

/-- C3: the generator appends its Luhn check digit to a body that already
holds the network digit plus the 15 digits drawn by the random loop, so
the produced number has 17 digits and violates the 16-digit constraint the
card schema itself imposes on cardNumber. -/
theorem generateCardNumber_seventeen_digits (network : CardNetwork)
    (randomDigits : List ℕ) (h : randomDigits.length = 15) :
    (generateCardNumber network randomDigits).length = 17 ∧
    ¬ validCardNumber (generateCardNumber network randomDigits) := by
  have hlen : (generateCardNumber network randomDigits).length = 17 := by
    simp only [generateCardNumber, List.length_append, List.length_cons,
      List.length_nil]
    omega
  exact ⟨hlen, fun hv => by have h16 := hv.1; omega⟩

/-- Witness for C3: a Visa number drawn with 15 zero digits has 17
digits. -/
theorem generateCardNumber_seventeen_digits_witness :
    (generateCardNumber .visa (List.replicate 15 0)).length = 17 :=
  (generateCardNumber_seventeen_digits .visa (List.replicate 15 0)
      (by simp)).1

/-- C8: a loan application by a user who already holds a loan with status
pending, approved or active fails with the duplicate-active-loan error, so
no new loan document is written and the store is unchanged. -/
theorem duplicate_active_loan_rejected (loans : List LoanRec) (uid : Nat)
    (lt : LoanType) (amount : ℚ) (term : ℕ)
    (h : ∃ l ∈ loans, l.user = uid ∧ isNonTerminal l.status = true) :
    applyLoan loans uid lt amount term = .error .duplicateActiveLoan := by
  obtain ⟨l, hmem, hu, hs⟩ := h
  have hany :
      loans.any (fun l => l.user == uid && isNonTerminal l.status) = true :=
    List.any_eq_true.mpr ⟨l, hmem, by simp [hu, hs]⟩
  simp [applyLoan, hany]

/-- Witness for C8: a store holding one pending loan of user 0 rejects a
second application by user 0. -/
theorem duplicate_active_loan_rejected_witness :
    applyLoan [loanPendingExample] 0 .personal 6000 12 =
      .error .duplicateActiveLoan :=
  duplicate_active_loan_rejected [loanPendingExample] 0 .personal 6000 12
    ⟨loanPendingExample, List.Mem.head _, rfl, rfl⟩
